import Mathlib

/-!
Verification of the coordinate-to-address ETL pipeline
(`transform_db.py` and its earlier draft `transform_csv_to_database.py`).

The Python code is shallowly embedded:
* Python dicts become association lists (`Dict`) with Python's
  insert-or-overwrite `update` semantics (`dictUpdate`) and `get`
  returning `PyVal.none` for missing keys (`dictGet`).
* Python string comparison (used by `list.sort()` on the key lists) is
  code-point lexicographic comparison, embedded as `charListLe` on
  `String.data`; `list.sort()` itself is embedded as insertion sort over
  that order.
* The googlemaps client, the database connection and `sys.exit` are
  modelled as explicit parameters / `Except` results; exceptions raised
  by inserts are modelled by outcome oracles (`DBModel`).
-/

/-- A Python value as it appears in the address dictionaries: `None`,
a string (display names), or a number (coordinates, distances). -/
inductive PyVal where
  | none
  | str (s : String)
  | num (q : Rat)
deriving DecidableEq, Repr

/-- A Python dict with string keys, as an association list in insertion
order (Python dicts preserve insertion order). -/
abbrev Dict := List (String × PyVal)

/-- The keys of a dict, in insertion order (Python `dict.keys()`). -/
def dictKeys (d : Dict) : List String := d.map Prod.fst

/-- Python `d[k] = v` / `d.update({k: v})`: overwrite in place if the key
exists, else append at the end. -/
def dictUpdate (d : Dict) (k : String) (v : PyVal) : Dict :=
  if k ∈ dictKeys d then
    d.map (fun p => if p.1 = k then (k, v) else p)
  else d ++ [(k, v)]

/-- Python `d.get(k)`: the first binding of `k`, or `None` when absent. -/
def dictGet (d : Dict) (k : String) : PyVal :=
  match d with
  | [] => PyVal.none
  | p :: rest => if p.1 = k then p.2 else dictGet rest k

/-- Code-point lexicographic comparison of character lists: Python's
`str.__lt__`/`__le__` used by `list.sort()` on the key strings. -/
def charListLe : List Char → List Char → Bool
  | [], _ => true
  | _ :: _, [] => false
  | a :: as, b :: bs => if a = b then charListLe as bs else decide (a.toNat < b.toNat)

/-- `a ≤ b` on strings, code-point lexicographically. -/
def strLeP (a b : String) : Prop := charListLe a.data b.data = true

instance : DecidableRel strLeP := fun a b =>
  inferInstanceAs (Decidable (charListLe a.data b.data = true))

theorem char_eq_of_toNat_eq {a b : Char} (h : a.toNat = b.toNat) : a = b :=
  Char.eq_of_val_eq (UInt32.ext h)

theorem charListLe_total : ∀ as bs, charListLe as bs = true ∨ charListLe bs as = true
  | [], _ => Or.inl rfl
  | _ :: _, [] => Or.inr rfl
  | a :: as, b :: bs => by
    by_cases hab : a = b
    · subst hab
      simpa [charListLe] using charListLe_total as bs
    · have hne : a.toNat ≠ b.toNat := fun h => hab (char_eq_of_toNat_eq h)
      have hba : b ≠ a := fun h => hab h.symm
      rcases Nat.lt_or_ge a.toNat b.toNat with h | h
      · left; simp [charListLe, hab, h]
      · right
        have : b.toNat < a.toNat := lt_of_le_of_ne h (fun h => hne h.symm)
        simp [charListLe, hba, this]

theorem charListLe_trans :
    ∀ as bs cs, charListLe as bs = true → charListLe bs cs = true →
      charListLe as cs = true
  | [], _, _, _, _ => rfl
  | _ :: _, [], _, h₁, _ => by simp [charListLe] at h₁
  | _ :: _, _ :: _, [], _, h₂ => by simp [charListLe] at h₂
  | a :: as, b :: bs, c :: cs, h₁, h₂ => by
    by_cases hab : a = b <;> by_cases hbc : b = c
    · subst hab; subst hbc
      simp only [charListLe, if_pos rfl] at h₁ h₂ ⊢
      exact charListLe_trans as bs cs h₁ h₂
    · subst hab
      simpa [charListLe, hbc] using h₂
    · subst hbc
      simpa [charListLe, hab] using h₁
    · simp only [charListLe, if_neg hab] at h₁
      simp only [charListLe, if_neg hbc] at h₂
      have hlt : a.toNat < c.toNat :=
        Nat.lt_trans (of_decide_eq_true h₁) (of_decide_eq_true h₂)
      have hac : a ≠ c := by
        intro h; subst h
        exact absurd hlt (lt_irrefl _)
      simp [charListLe, hac, hlt]

theorem charListLe_antisymm :
    ∀ as bs, charListLe as bs = true → charListLe bs as = true → as = bs
  | [], [], _, _ => rfl
  | [], _ :: _, _, h₂ => by simp [charListLe] at h₂
  | _ :: _, [], h₁, _ => by simp [charListLe] at h₁
  | a :: as, b :: bs, h₁, h₂ => by
    by_cases hab : a = b
    · subst hab
      simp only [charListLe, if_pos rfl] at h₁ h₂
      rw [charListLe_antisymm as bs h₁ h₂]
    · have hba : b ≠ a := fun h => hab h.symm
      simp only [charListLe, if_neg hab] at h₁
      simp only [charListLe, if_neg hba] at h₂
      exact absurd (Nat.lt_trans (of_decide_eq_true h₁) (of_decide_eq_true h₂))
        (lt_irrefl _)

instance : IsTotal String strLeP := ⟨fun a b => charListLe_total a.data b.data⟩

instance : IsTrans String strLeP := ⟨fun a b c => charListLe_trans a.data b.data c.data⟩

instance : IsAntisymm String strLeP :=
  ⟨fun a b h₁ h₂ => by
    cases a; cases b
    exact congrArg String.mk (charListLe_antisymm _ _ h₁ h₂)⟩

/-- Python `list.sort()` on a list of strings (ascending, code-point
lexicographic), embedded as insertion sort. -/
def sortStrings (l : List String) : List String := List.insertionSort strLeP l

theorem sortStrings_eq_iff_perm (l₁ l₂ : List String) :
    sortStrings l₁ = sortStrings l₂ ↔ List.Perm l₁ l₂ := by
  constructor
  · intro h
    have p₁ : List.Perm (sortStrings l₁) l₁ := List.perm_insertionSort strLeP l₁
    have p₂ : List.Perm (sortStrings l₂) l₂ := List.perm_insertionSort strLeP l₂
    exact p₁.symm.trans (h ▸ p₂)
  · intro h
    apply List.eq_of_perm_of_sorted ?_ (List.sorted_insertionSort strLeP l₁)
      (List.sorted_insertionSort strLeP l₂)
    exact ((List.perm_insertionSort strLeP l₁).trans h).trans
      (List.perm_insertionSort strLeP l₂).symm

/-- `transform_db.py`, `Converter.is_address_valid`: the hard-coded
`address_components` list of required field names. -/
def address_components_db : List String :=
  ["country", "state", "city", "neighborhood", "street_number",
   "street_name", "postal_code", "latitude", "longitude"]

/-- `transform_db.py`, `Converter.is_address_valid`: sort the dict's key
list and the required-name list, and compare for equality. -/
def is_address_valid (address : Dict) : Bool :=
  decide (sortStrings (dictKeys address) = sortStrings address_components_db)

/-- `transform_csv_to_database.py`, `Converter.is_address_valid`: the
hard-coded list in the draft file, with the misspelled coordinate names. -/
def address_components_csv : List String :=
  ["country", "state", "city", "neighborhood", "street_number",
   "street_name", "postal_code", "latitute", "longitute"]

/-- `transform_csv_to_database.py`, `Converter.is_address_valid`: return
`False` as soon as one key of the address is not in the hard-coded list,
else `True` (a subset check, not an equality check). -/
def csv_is_address_valid (address : Dict) : Bool :=
  (dictKeys address).all (fun k => decide (k ∈ address_components_csv))

/-- The db-file validator accepts exactly the dicts whose key list is a
permutation of the nine required names. -/
theorem is_address_valid_iff_perm (a : Dict) :
    is_address_valid a = true ↔ List.Perm (dictKeys a) address_components_db := by
  unfold is_address_valid
  rw [decide_eq_true_eq, sortStrings_eq_iff_perm]

/-- For a genuine dict (no duplicate keys), the db-file validator accepts
iff the key set equals exactly the nine required names. -/
theorem is_address_valid_iff (a : Dict) (h : (dictKeys a).Nodup) :
    is_address_valid a = true ↔
      ∀ k, k ∈ dictKeys a ↔ k ∈ address_components_db := by
  rw [is_address_valid_iff_perm]
  exact List.perm_ext_iff_of_nodup h (by decide)

theorem dictKeys_dictUpdate (d : Dict) (k : String) (v : PyVal) :
    dictKeys (dictUpdate d k v) =
      if k ∈ dictKeys d then dictKeys d else dictKeys d ++ [k] := by
  unfold dictUpdate
  split
  · simp only [dictKeys, List.map_map, if_pos ‹k ∈ dictKeys d›]
    apply List.map_congr_left
    intro p _
    by_cases h : p.1 = k <;> simp [h]
  · simp [dictKeys, if_neg ‹¬ k ∈ dictKeys d›]

theorem mem_dictKeys_dictUpdate (d : Dict) (k : String) (v : PyVal) (a : String) :
    a ∈ dictKeys (dictUpdate d k v) ↔ a ∈ dictKeys d ∨ a = k := by
  rw [dictKeys_dictUpdate]
  split
  · constructor
    · exact Or.inl
    · rintro (h | rfl)
      · exact h
      · assumption
  · simp

theorem nodup_dictKeys_dictUpdate (d : Dict) (k : String) (v : PyVal)
    (h : (dictKeys d).Nodup) : (dictKeys (dictUpdate d k v)).Nodup := by
  rw [dictKeys_dictUpdate]
  split
  · exact h
  · simp [List.nodup_append, h, ‹¬ k ∈ dictKeys d›]

/-- One address component of a googlemaps reverse-geocode candidate: display
names plus the semantic type tags. -/
structure AddressComponent where
  long_name : String
  short_name : String
  types : List String
deriving DecidableEq, Repr

/-- One row of the tag-to-field mapping inside
`Converter.get_address_from_address_components` (both files have the same
seven `if "tag" in component_types:` blocks, in the same order). -/
structure ExtractRule where
  tag : String
  field : String
  useShortName : Bool
deriving DecidableEq, Repr

/-- The seven `if` blocks of `get_address_from_address_components`, in source
order; only `administrative_area_level_1` reads the short display name. -/
def extract_rules : List ExtractRule :=
  [⟨"country", "country", false⟩,
   ⟨"administrative_area_level_1", "state", true⟩,
   ⟨"administrative_area_level_2", "city", false⟩,
   ⟨"sublocality_level_1", "neighborhood", false⟩,
   ⟨"street_number", "street_number", false⟩,
   ⟨"route", "street_name", false⟩,
   ⟨"postal_code", "postal_code", false⟩]

/-- One `if "tag" in component_types: address.update({field: name})` block. -/
def applyRule (c : AddressComponent) (address : Dict) (r : ExtractRule) : Dict :=
  if r.tag ∈ c.types then
    dictUpdate address r.field
      (PyVal.str (if r.useShortName then c.short_name else c.long_name))
  else address

/-- The body of the `for component in address_components:` loop: the seven
`if` blocks applied in source order. -/
def extractStep (address : Dict) (c : AddressComponent) : Dict :=
  extract_rules.foldl (applyRule c) address

/-- `Converter.get_address_from_address_components` (identical in both
files): fold the loop over the components starting from `{}`; the trailing
`if address: return address` returns `None` for an empty dict. -/
def get_address_from_address_components (cs : List AddressComponent) : Option Dict :=
  let address := cs.foldl extractStep []
  if address.isEmpty then Option.none else Option.some address

theorem mem_dictKeys_foldl_applyRule (c : AddressComponent) :
    ∀ (rs : List ExtractRule) (d : Dict) (a : String),
      a ∈ dictKeys (rs.foldl (applyRule c) d) ↔
        a ∈ dictKeys d ∨ ∃ r ∈ rs, r.tag ∈ c.types ∧ a = r.field
  | [], d, a => by simp
  | r :: rs, d, a => by
    rw [List.foldl_cons, mem_dictKeys_foldl_applyRule c rs (applyRule c d r) a]
    unfold applyRule
    constructor
    · rintro (h | ⟨r', hr', ht', rfl⟩)
      · split at h
        · rw [mem_dictKeys_dictUpdate] at h
          rcases h with h | rfl
          · exact Or.inl h
          · exact Or.inr ⟨r, List.mem_cons_self r rs, ‹r.tag ∈ c.types›, rfl⟩
        · exact Or.inl h
      · exact Or.inr ⟨r', List.mem_cons_of_mem r hr', ht', rfl⟩
    · rintro (h | ⟨r', hr', ht', rfl⟩)
      · left
        split
        · rw [mem_dictKeys_dictUpdate]; exact Or.inl h
        · exact h
      · rcases List.mem_cons.mp hr' with rfl | hr'
        · left
          rw [if_pos ht', mem_dictKeys_dictUpdate]
          exact Or.inr rfl
        · exact Or.inr ⟨r', hr', ht', rfl⟩

theorem mem_dictKeys_foldl_extractStep :
    ∀ (cs : List AddressComponent) (d : Dict) (a : String),
      a ∈ dictKeys (cs.foldl extractStep d) ↔
        a ∈ dictKeys d ∨ ∃ c ∈ cs, ∃ r ∈ extract_rules, r.tag ∈ c.types ∧ a = r.field
  | [], d, a => by simp
  | c :: cs, d, a => by
    rw [List.foldl_cons, mem_dictKeys_foldl_extractStep cs (extractStep d c) a]
    unfold extractStep
    rw [mem_dictKeys_foldl_applyRule]
    constructor
    · rintro ((h | ⟨r, hr, ht, rfl⟩) | ⟨c', hc', hrest⟩)
      · exact Or.inl h
      · exact Or.inr ⟨c, List.mem_cons_self c cs, r, hr, ht, rfl⟩
      · exact Or.inr ⟨c', List.mem_cons_of_mem c hc', hrest⟩
    · rintro (h | ⟨c', hc', hrest⟩)
      · exact Or.inl (Or.inl h)
      · rcases List.mem_cons.mp hc' with rfl | hc'
        · exact Or.inl (Or.inr hrest)
        · exact Or.inr ⟨c', hc', hrest⟩

theorem nodup_dictKeys_foldl_applyRule (c : AddressComponent) :
    ∀ (rs : List ExtractRule) (d : Dict), (dictKeys d).Nodup →
      (dictKeys (rs.foldl (applyRule c) d)).Nodup
  | [], _, h => h
  | r :: rs, d, h => by
    rw [List.foldl_cons]
    apply nodup_dictKeys_foldl_applyRule c rs
    unfold applyRule
    split
    · exact nodup_dictKeys_dictUpdate _ _ _ h
    · exact h

theorem nodup_dictKeys_foldl_extractStep :
    ∀ (cs : List AddressComponent) (d : Dict), (dictKeys d).Nodup →
      (dictKeys (cs.foldl extractStep d)).Nodup
  | [], _, h => h
  | c :: cs, d, h => by
    rw [List.foldl_cons]
    exact nodup_dictKeys_foldl_extractStep cs _ (nodup_dictKeys_foldl_applyRule c _ d h)

theorem foldl_applyRule_no_match (c : AddressComponent)
    (h : ∀ r ∈ extract_rules, r.tag ∉ c.types) (d : Dict) :
    extractStep d c = d := by
  unfold extractStep
  have : ∀ (rs : List ExtractRule), (∀ r ∈ rs, r.tag ∉ c.types) →
      rs.foldl (applyRule c) d = d := by
    intro rs
    induction rs with
    | nil => intro _; rfl
    | cons r rs ih =>
      intro hrs
      rw [List.foldl_cons]
      unfold applyRule
      rw [if_neg (hrs r (List.mem_cons_self r rs))]
      exact ih (fun r' hr' => hrs r' (List.mem_cons_of_mem r hr'))
  exact this extract_rules h

theorem foldl_extractStep_no_match :
    ∀ (cs : List AddressComponent),
      (∀ c ∈ cs, ∀ r ∈ extract_rules, r.tag ∉ c.types) →
      ∀ d : Dict, cs.foldl extractStep d = d
  | [], _, _ => rfl
  | c :: cs, h, d => by
    rw [List.foldl_cons, foldl_applyRule_no_match c (h c (List.mem_cons_self c cs))]
    exact foldl_extractStep_no_match cs
      (fun c' hc' => h c' (List.mem_cons_of_mem c hc')) d

/-- One row of the input coordinate CSV (columns in the documented order:
latitude, longitude, distance_km, bearing_degrees). -/
structure CoordinateRow where
  latitude : Rat
  longitude : Rat
  distance_km : Rat
  bearing_degrees : Rat
deriving DecidableEq, Repr

/-- One candidate of a googlemaps reverse-geocode response. -/
structure GeocodeCandidate where
  address_components : List AddressComponent
deriving DecidableEq, Repr

/-- Behaviour of one `maps.reverse_geocode` call: a candidate list (possibly
empty) or an `ApiError` with its message. -/
inductive ResolveResult where
  | ok (candidates : List GeocodeCandidate)
  | apiError (message : String)
deriving DecidableEq, Repr

/-- Log severities used by the pipeline. -/
inductive Severity where
  | debug
  | info
  | warning
  | critical
deriving DecidableEq, Repr

/-- The log messages the pipeline emits (interpolated data abstracted to the
message kind plus the raw exception text where the code logs one). -/
inductive LogMsg where
  | apiError (message : String)
  | savedAddress
  | integrityError (message : String)
  | otherError (message : String)
  | addressNotSaved
deriving DecidableEq, Repr

/-- One log line: severity and message. -/
structure LogEntry where
  severity : Severity
  msg : LogMsg
deriving DecidableEq, Repr

/-- `Converter.get_address_from_coordinates` (identical in both files):
return the candidate list, or on `ApiError` log at critical severity and
`sys.exit(1)` (modelled as `Except.error` carrying exit code 1). -/
def get_address_from_coordinates (resolver : Rat → Rat → ResolveResult)
    (latitude longitude : Rat) :
    Except (Nat × List LogEntry) (List GeocodeCandidate) :=
  match resolver latitude longitude with
  | ResolveResult.ok candidates => Except.ok candidates
  | ResolveResult.apiError m => Except.error (1, [⟨Severity.critical, LogMsg.apiError m⟩])

/-- What one table insert does: succeed, raise `IntegrityError`, or raise
some other exception (with the exception text). -/
inductive InsertOutcome where
  | ok
  | integrityError (message : String)
  | otherError (message : String)
deriving DecidableEq, Repr

/-- The relational store: for each of the two tables, an oracle deciding
whether inserting a given row into the current table contents succeeds or
raises. -/
structure DBModel where
  coordOutcome : Dict → List Dict → InsertOutcome
  addrOutcome : Dict → List Dict → InsertOutcome

/-- Contents of the two target tables. -/
structure DBState where
  coordinate_points : List Dict
  addresses : List Dict
deriving DecidableEq, Repr

/-- Terminal state of one row, per the spec state machine (§4.5). -/
inductive RowOutcome where
  | persisted
  | skippedNotFound
  | skippedEmptyComponents
  | skippedEmptyAddress
  | skippedIncomplete
  | skippedConflict
  | skippedStoreFailure
deriving DecidableEq, Repr

/-- The rebound `coordinate = {...}` dict built just before saving
(`transform_db.py` lines 197–202). -/
def build_coordinate_row (row : CoordinateRow) : Dict :=
  [("latitude", PyVal.num row.latitude),
   ("longitude", PyVal.num row.longitude),
   ("distance_km", PyVal.num row.distance_km),
   ("bearing_degrees", PyVal.num row.bearing_degrees)]

/-- The `addresses = {...}` dict built from the validated address via
`.get` (identical field list in `transform_db.py` lines 204–214 and
`transform_csv_to_database.py` lines 180–192). -/
def build_addresses_row (complete_address : Dict) : Dict :=
  [("street_number", dictGet complete_address "street_number"),
   ("street_name", dictGet complete_address "street_name"),
   ("neighborhood", dictGet complete_address "neighborhood"),
   ("city", dictGet complete_address "city"),
   ("state", dictGet complete_address "state"),
   ("country", dictGet complete_address "country"),
   ("postal_code", dictGet complete_address "postal_code"),
   ("latitude", dictGet complete_address "latitude"),
   ("longitude", dictGet complete_address "longitude")]

/-- The `complete_address.update({"latitude": ..., "longitude": ...})` merge
in `transform_db.py` (lines 190–195): the row's latitude then longitude. -/
def merge_coordinates (address : Dict) (latitude longitude : Rat) : Dict :=
  dictUpdate (dictUpdate address "latitude" (PyVal.num latitude))
    "longitude" (PyVal.num longitude)

/-- `Converter.save_to_database` in `transform_db.py`: insert the coordinate
then the address inside one `try`; `IntegrityError` and any other exception
are caught and logged at critical severity; on success an info line is
logged.  Returns the new table contents, the row's terminal outcome and the
log lines. -/
def save_to_database (db : DBModel) (st : DBState) (coordinate address : Dict) :
    DBState × RowOutcome × List LogEntry :=
  match db.coordOutcome coordinate st.coordinate_points with
  | InsertOutcome.integrityError m =>
      (st, RowOutcome.skippedConflict, [⟨Severity.critical, LogMsg.integrityError m⟩])
  | InsertOutcome.otherError m =>
      (st, RowOutcome.skippedStoreFailure, [⟨Severity.critical, LogMsg.otherError m⟩])
  | InsertOutcome.ok =>
      let st₁ : DBState := { st with coordinate_points := st.coordinate_points ++ [coordinate] }
      match db.addrOutcome address st₁.addresses with
      | InsertOutcome.integrityError m =>
          (st₁, RowOutcome.skippedConflict, [⟨Severity.critical, LogMsg.integrityError m⟩])
      | InsertOutcome.otherError m =>
          (st₁, RowOutcome.skippedStoreFailure, [⟨Severity.critical, LogMsg.otherError m⟩])
      | InsertOutcome.ok =>
          ({ st₁ with addresses := st₁.addresses ++ [address] },
           RowOutcome.persisted, [⟨Severity.info, LogMsg.savedAddress⟩])

/-- The body of the `for (number, coordinate) in dataset_coordinates.iterrows()`
loop of `transform_db.py`'s `save_dataset_coordinates_to_database`:
resolve, check `if result:` (else log a warning), take the first candidate's
components, extract, merge the coordinates, validate, and save.  `sys.exit`
from an `ApiError` surfaces as `Except.error`. -/
def process_row (resolver : Rat → Rat → ResolveResult) (db : DBModel)
    (st : DBState) (row : CoordinateRow) :
    Except (Nat × List LogEntry) (DBState × RowOutcome × List LogEntry) :=
  match get_address_from_coordinates resolver row.latitude row.longitude with
  | Except.error e => Except.error e
  | Except.ok result =>
    match result with
    | [] =>
        Except.ok (st, RowOutcome.skippedNotFound,
          [⟨Severity.warning, LogMsg.addressNotSaved⟩])
    | first :: _ =>
      let address_components := first.address_components
      if address_components.isEmpty then
        Except.ok (st, RowOutcome.skippedEmptyComponents, [])
      else
        match get_address_from_address_components address_components with
        | Option.none => Except.ok (st, RowOutcome.skippedEmptyAddress, [])
        | Option.some addr =>
          let complete_address := merge_coordinates addr row.latitude row.longitude
          if is_address_valid complete_address then
            Except.ok (save_to_database db st (build_coordinate_row row)
              (build_addresses_row complete_address))
          else
            Except.ok (st, RowOutcome.skippedIncomplete, [])

/-- Result of one batch run: final table contents, the terminal outcome of
every row that completed, the log, the coordinates the resolver was called
on (in order), and `some code` when the run was terminated by `sys.exit`. -/
structure BatchResult where
  finalState : DBState
  outcomes : List RowOutcome
  logs : List LogEntry
  calls : List (Rat × Rat)
  exitCode : Option Nat
deriving DecidableEq, Repr

/-- `Converter.save_dataset_coordinates_to_database` in `transform_db.py`:
process the rows in order; an `ApiError` (`sys.exit(1)`) stops the loop at
the current row, leaving later rows unattempted. -/
def save_dataset_coordinates_to_database (resolver : Rat → Rat → ResolveResult)
    (db : DBModel) (st : DBState) : List CoordinateRow → BatchResult
  | [] => ⟨st, [], [], [], Option.none⟩
  | row :: rest =>
    match process_row resolver db st row with
    | Except.error (code, lgs) =>
        ⟨st, [], lgs, [(row.latitude, row.longitude)], Option.some code⟩
    | Except.ok (st', outcome, lgs) =>
        let r := save_dataset_coordinates_to_database resolver db st' rest
        ⟨r.finalState, outcome :: r.outcomes, lgs ++ r.logs,
         (row.latitude, row.longitude) :: r.calls, r.exitCode⟩

/-- The draft file merges the coordinate into the address under the
misspelled keys, from the positional column values
(`transform_csv_to_database.py` lines 164–169:
`{"latitute": coordinate.values[0], "longitute": coordinate.values[1]}`;
under the documented column order these are the latitude and longitude). -/
def csv_merge_coordinates (address : Dict) (values0 values1 : Rat) : Dict :=
  dictUpdate (dictUpdate address "latitute" (PyVal.num values0))
    "longitute" (PyVal.num values1)

/-- Why the draft file's loop stopped early: `sys.exit(code)` from the
`ApiError` handler, or an insert exception propagating uncaught. -/
inductive CsvAbort where
  | exited (code : Nat)
  | uncaught (e : InsertOutcome)
deriving DecidableEq, Repr

/-- Result of running the draft file's loop: final table contents, the
coordinates the resolver was called on, and how (if at all) it aborted. -/
structure CsvBatchResult where
  finalState : DBState
  calls : List (Rat × Rat)
  abort : Option CsvAbort
deriving DecidableEq, Repr

/-- `Converter.save_dataset_coordinates_to_database` in
`transform_csv_to_database.py`: the same per-row chain, but the coordinate
is merged in under the misspelled keys from the positional values, the
subset-check validator is used, and the two `insert` calls are bare — the
`try`/`except` around the loop is commented out in the source, so an
`IntegrityError` (or any other insert exception) propagates and terminates
the whole run with the coordinate row already committed. -/
def csv_save_dataset_coordinates_to_database (resolver : Rat → Rat → ResolveResult)
    (db : DBModel) (st : DBState) : List CoordinateRow → CsvBatchResult
  | [] => ⟨st, [], Option.none⟩
  | row :: rest =>
    match resolver row.latitude row.longitude with
    | ResolveResult.apiError _ =>
        ⟨st, [(row.latitude, row.longitude)], Option.some (CsvAbort.exited 1)⟩
    | ResolveResult.ok result =>
      match result with
      | [] =>
          let r := csv_save_dataset_coordinates_to_database resolver db st rest
          ⟨r.finalState, (row.latitude, row.longitude) :: r.calls, r.abort⟩
      | first :: _ =>
        if first.address_components.isEmpty then
          let r := csv_save_dataset_coordinates_to_database resolver db st rest
          ⟨r.finalState, (row.latitude, row.longitude) :: r.calls, r.abort⟩
        else
          match get_address_from_address_components first.address_components with
          | Option.none =>
              let r := csv_save_dataset_coordinates_to_database resolver db st rest
              ⟨r.finalState, (row.latitude, row.longitude) :: r.calls, r.abort⟩
          | Option.some addr =>
            let complete_address := csv_merge_coordinates addr row.latitude row.longitude
            if csv_is_address_valid complete_address then
              match db.coordOutcome (build_coordinate_row row) st.coordinate_points with
              | InsertOutcome.integrityError m =>
                  ⟨st, [(row.latitude, row.longitude)],
                   Option.some (CsvAbort.uncaught (InsertOutcome.integrityError m))⟩
              | InsertOutcome.otherError m =>
                  ⟨st, [(row.latitude, row.longitude)],
                   Option.some (CsvAbort.uncaught (InsertOutcome.otherError m))⟩
              | InsertOutcome.ok =>
                let st₁ : DBState :=
                  { st with coordinate_points := st.coordinate_points ++ [build_coordinate_row row] }
                match db.addrOutcome (build_addresses_row complete_address) st₁.addresses with
                | InsertOutcome.integrityError m =>
                    ⟨st₁, [(row.latitude, row.longitude)],
                     Option.some (CsvAbort.uncaught (InsertOutcome.integrityError m))⟩
                | InsertOutcome.otherError m =>
                    ⟨st₁, [(row.latitude, row.longitude)],
                     Option.some (CsvAbort.uncaught (InsertOutcome.otherError m))⟩
                | InsertOutcome.ok =>
                  let st₂ : DBState :=
                    { st₁ with addresses := st₁.addresses ++ [build_addresses_row complete_address] }
                  let r := csv_save_dataset_coordinates_to_database resolver db st₂ rest
                  ⟨r.finalState, (row.latitude, row.longitude) :: r.calls, r.abort⟩
            else
              let r := csv_save_dataset_coordinates_to_database resolver db st rest
              ⟨r.finalState, (row.latitude, row.longitude) :: r.calls, r.abort⟩

/-- A reverse-geocode component list covering all seven recognized tags, one
per component, in source-rule order. -/
def componentsFull : List AddressComponent :=
  [⟨"Brazil", "BR", ["country", "political"]⟩,
   ⟨"Rio Grande do Sul", "RS", ["administrative_area_level_1", "political"]⟩,
   ⟨"Porto Alegre", "Porto Alegre", ["administrative_area_level_2", "political"]⟩,
   ⟨"Centro Historico", "Centro Historico", ["sublocality_level_1", "political"]⟩,
   ⟨"123", "123", ["street_number"]⟩,
   ⟨"Rua dos Andradas", "R. dos Andradas", ["route"]⟩,
   ⟨"90020-004", "90020-004", ["postal_code"]⟩]

/-- The candidate wrapping `componentsFull`. -/
def candidateFull : GeocodeCandidate := ⟨componentsFull⟩

/-- A store in which every insert succeeds. -/
def dbAllOk : DBModel := ⟨fun _ _ => InsertOutcome.ok, fun _ _ => InsertOutcome.ok⟩

/-- A store in which every coordinate insert raises `IntegrityError`. -/
def dbCoordConflict : DBModel :=
  ⟨fun _ _ => InsertOutcome.integrityError "duplicate key value violates unique constraint",
   fun _ _ => InsertOutcome.ok⟩

/-- A store in which the coordinate insert succeeds but the address insert
raises a non-integrity persistence error. -/
def dbAddrFails : DBModel :=
  ⟨fun _ _ => InsertOutcome.ok,
   fun _ _ => InsertOutcome.otherError "connection reset during insert"⟩

/-- Both tables empty. -/
def st0 : DBState := ⟨[], []⟩

/-- A concrete input row. -/
def rowA : CoordinateRow := ⟨1, 2, 5, 90⟩

/-- A second concrete input row. -/
def rowB : CoordinateRow := ⟨3, 4, 6, 180⟩

/-- A complete structured address with exactly the nine required fields. -/
def addressFull : Dict :=
  [("country", PyVal.str "Brazil"), ("state", PyVal.str "RS"),
   ("city", PyVal.str "Porto Alegre"), ("neighborhood", PyVal.str "Centro Historico"),
   ("street_number", PyVal.str "123"), ("street_name", PyVal.str "Rua dos Andradas"),
   ("postal_code", PyVal.str "90020-004"), ("latitude", PyVal.num (-30)),
   ("longitude", PyVal.num (-51))]

/-- C1: the validator is specified to accept exactly the nine-name field
set, and `transform_db.py`'s `is_address_valid` does; but the draft
`transform_csv_to_database.py`'s `is_address_valid` accepts addresses with
missing fields — it accepts a country-only map and even the empty map,
which the claim (and its own docstring) requires it to reject. -/
theorem csv_validator_accepts_incomplete_address :
    csv_is_address_valid [("country", PyVal.str "Brazil")] = true ∧
    is_address_valid [("country", PyVal.str "Brazil")] = false ∧
    csv_is_address_valid ([] : Dict) = true ∧
    is_address_valid ([] : Dict) = false := by decide

/-- C2: running the draft `transform_csv_to_database.py` loop on a row with
coordinates (1, 2) persists the row (no abort), but the addresses row it
writes carries `None` for latitude and longitude instead of the row's
coordinates, because the merge stored them under the misspelled keys
`latitute`/`longitute`; the refactored `transform_db.py` loop on the same
input writes the row's coordinates 1 and 2 as the claim states. -/
theorem csv_persisted_address_has_none_coordinates :
    (csv_save_dataset_coordinates_to_database (fun _ _ => ResolveResult.ok [candidateFull])
        dbAllOk st0 [rowA]).abort = Option.none ∧
    (csv_save_dataset_coordinates_to_database (fun _ _ => ResolveResult.ok [candidateFull])
        dbAllOk st0 [rowA]).finalState.addresses =
      [[("street_number", PyVal.str "123"), ("street_name", PyVal.str "Rua dos Andradas"),
        ("neighborhood", PyVal.str "Centro Historico"), ("city", PyVal.str "Porto Alegre"),
        ("state", PyVal.str "RS"), ("country", PyVal.str "Brazil"),
        ("postal_code", PyVal.str "90020-004"),
        ("latitude", PyVal.none), ("longitude", PyVal.none)]] ∧
    (save_dataset_coordinates_to_database (fun _ _ => ResolveResult.ok [candidateFull])
        dbAllOk st0 [rowA]).finalState.addresses =
      [[("street_number", PyVal.str "123"), ("street_name", PyVal.str "Rua dos Andradas"),
        ("neighborhood", PyVal.str "Centro Historico"), ("city", PyVal.str "Porto Alegre"),
        ("state", PyVal.str "RS"), ("country", PyVal.str "Brazil"),
        ("postal_code", PyVal.str "90020-004"),
        ("latitude", PyVal.num 1), ("longitude", PyVal.num 2)]] ∧
    rowA.latitude = 1 ∧ rowA.longitude = 2 ∧ PyVal.none ≠ PyVal.num 1 := by decide

/-- C3: in `transform_db.py` an `IntegrityError` on insert is caught inside
`save_to_database` — on a two-row batch where every coordinate insert
conflicts, both rows reach `skippedConflict`, the resolver is called for
both rows and the run does not exit; in the draft
`transform_csv_to_database.py` the same conflict propagates uncaught out of
the loop: the run aborts on row one and row two is never attempted. -/
theorem conflict_caught_in_db_file_fatal_in_csv_file :
    (save_dataset_coordinates_to_database (fun _ _ => ResolveResult.ok [candidateFull])
        dbCoordConflict st0 [rowA, rowB]).outcomes =
      [RowOutcome.skippedConflict, RowOutcome.skippedConflict] ∧
    (save_dataset_coordinates_to_database (fun _ _ => ResolveResult.ok [candidateFull])
        dbCoordConflict st0 [rowA, rowB]).exitCode = Option.none ∧
    (save_dataset_coordinates_to_database (fun _ _ => ResolveResult.ok [candidateFull])
        dbCoordConflict st0 [rowA, rowB]).calls = [(1, 2), (3, 4)] ∧
    (csv_save_dataset_coordinates_to_database (fun _ _ => ResolveResult.ok [candidateFull])
        dbCoordConflict st0 [rowA, rowB]).abort =
      Option.some (CsvAbort.uncaught
        (InsertOutcome.integrityError "duplicate key value violates unique constraint")) ∧
    (csv_save_dataset_coordinates_to_database (fun _ _ => ResolveResult.ok [candidateFull])
        dbCoordConflict st0 [rowA, rowB]).calls = [(1, 2)] := by decide

/-- C8: on a component list with a single component tagged `street_number`
and display name `123`, the extractor yields exactly
`{street_number: "123"}` and no other field. -/
theorem street_number_single_component_extract :
    get_address_from_address_components [⟨"123", "123", ["street_number"]⟩] =
      Option.some [("street_number", PyVal.str "123")] := by decide

/-- C9: no transaction spans the two inserts of `save_to_database`: in an
execution where the coordinate insert succeeds and the address insert then
fails, the coordinate row remains persisted, no address row exists, and the
failure is only logged (critical) and reported as a per-row outcome. -/
theorem no_transaction_partial_persistence :
    save_to_database dbAddrFails st0 (build_coordinate_row rowA) addressFull =
      (⟨[build_coordinate_row rowA], []⟩, RowOutcome.skippedStoreFailure,
       [⟨Severity.critical, LogMsg.otherError "connection reset during insert"⟩]) := by decide

/-- C10 counterexample: the two `is_address_valid` implementations disagree
on a country-only address map — the draft file's validator accepts it, the
refactored file's rejects it. -/
theorem validators_disagree_counterexample :
    csv_is_address_valid [("country", PyVal.str "BR")] ≠
      is_address_valid [("country", PyVal.str "BR")] := by decide

/-- C6: a row whose resolver call returns no candidate leaves the store
untouched, is logged at warning severity, terminates as `skippedNotFound`,
and contributes exactly 1 to the batch's `skippedNotFound` count. -/
theorem not_found_row_skipped (resolver : Rat → Rat → ResolveResult) (db : DBModel)
    (st : DBState) (row : CoordinateRow) (rest : List CoordinateRow)
    (h : resolver row.latitude row.longitude = ResolveResult.ok []) :
    process_row resolver db st row =
      Except.ok (st, RowOutcome.skippedNotFound,
        [⟨Severity.warning, LogMsg.addressNotSaved⟩]) ∧
    (save_dataset_coordinates_to_database resolver db st (row :: rest)).finalState =
      (save_dataset_coordinates_to_database resolver db st rest).finalState ∧
    (save_dataset_coordinates_to_database resolver db st (row :: rest)).outcomes.count
        RowOutcome.skippedNotFound =
      (save_dataset_coordinates_to_database resolver db st rest).outcomes.count
        RowOutcome.skippedNotFound + 1 := by
  have hp : process_row resolver db st row =
      Except.ok (st, RowOutcome.skippedNotFound,
        [⟨Severity.warning, LogMsg.addressNotSaved⟩]) := by
    unfold process_row get_address_from_coordinates
    rw [h]
  refine ⟨hp, ?_, ?_⟩
  · simp only [save_dataset_coordinates_to_database, hp]
  · simp only [save_dataset_coordinates_to_database, hp]
    simp [List.count_cons]

/-- C7: on a component list in which no component carries any of the seven
recognized tags the extractor returns nothing, and a row resolving to such
a candidate is skipped without error and without touching the store. -/
theorem no_recognized_tags_row_skipped (cs : List AddressComponent)
    (h : ∀ c ∈ cs, ∀ r ∈ extract_rules, r.tag ∉ c.types) :
    get_address_from_address_components cs = Option.none ∧
    ∀ (resolver : Rat → Rat → ResolveResult) (db : DBModel) (st : DBState)
      (row : CoordinateRow),
      resolver row.latitude row.longitude = ResolveResult.ok [⟨cs⟩] →
      process_row resolver db st row =
        Except.ok (st,
          if cs.isEmpty then RowOutcome.skippedEmptyComponents
          else RowOutcome.skippedEmptyAddress, []) := by
  have hextract : get_address_from_address_components cs = Option.none := by
    unfold get_address_from_address_components
    rw [foldl_extractStep_no_match cs h]
    rfl
  refine ⟨hextract, fun resolver db st row hres => ?_⟩
  unfold process_row get_address_from_coordinates
  rw [hres]
  cases hcs : cs with
  | nil => rfl
  | cons c cs' =>
    rw [hcs] at hextract
    simp [hextract]

/-- C6 witness: concrete instantiation of `not_found_row_skipped`. -/
theorem not_found_row_skipped_witness :
    process_row (fun _ _ => ResolveResult.ok []) dbAllOk st0 rowA =
      Except.ok (st0, RowOutcome.skippedNotFound,
        [⟨Severity.warning, LogMsg.addressNotSaved⟩]) ∧
    (save_dataset_coordinates_to_database (fun _ _ => ResolveResult.ok [])
        dbAllOk st0 [rowA, rowB]).outcomes.count RowOutcome.skippedNotFound =
      (save_dataset_coordinates_to_database (fun _ _ => ResolveResult.ok [])
        dbAllOk st0 [rowB]).outcomes.count RowOutcome.skippedNotFound + 1 := by
  have h := not_found_row_skipped (fun _ _ => ResolveResult.ok []) dbAllOk st0 rowA [rowB] rfl
  exact ⟨h.1, h.2.2⟩

/-- C7 witness: concrete instantiation of `no_recognized_tags_row_skipped`
on a single politically-tagged component. -/
theorem no_recognized_tags_row_skipped_witness :
    get_address_from_address_components [⟨"Brazil", "BR", ["political"]⟩] = Option.none ∧
    process_row (fun _ _ => ResolveResult.ok [⟨[⟨"Brazil", "BR", ["political"]⟩]⟩])
        dbAllOk st0 rowA =
      Except.ok (st0, RowOutcome.skippedEmptyAddress, []) := by
  have h := no_recognized_tags_row_skipped [⟨"Brazil", "BR", ["political"]⟩] (by decide)
  refine ⟨h.1, ?_⟩
  have h2 := h.2 (fun _ _ => ResolveResult.ok [⟨[⟨"Brazil", "BR", ["political"]⟩]⟩])
    dbAllOk st0 rowA rfl
  simpa using h2

theorem process_row_ok_of_not_apiError (resolver : Rat → Rat → ResolveResult)
    (db : DBModel) (st : DBState) (row : CoordinateRow)
    (h : ∀ m, resolver row.latitude row.longitude ≠ ResolveResult.apiError m) :
    ∃ st' oc lgs, process_row resolver db st row = Except.ok (st', oc, lgs) := by
  unfold process_row get_address_from_coordinates
  cases hres : resolver row.latitude row.longitude with
  | apiError m => exact absurd hres (h m)
  | ok result =>
    cases result with
    | nil => exact ⟨st, _, _, rfl⟩
    | cons first rest =>
      dsimp only
      by_cases hc : first.address_components.isEmpty
      · rw [if_pos hc]
        exact ⟨st, _, _, rfl⟩
      · rw [if_neg hc]
        cases hext : get_address_from_address_components first.address_components with
        | none => exact ⟨st, _, _, rfl⟩
        | some addr =>
          dsimp only
          by_cases hv : is_address_valid (merge_coordinates addr row.latitude row.longitude) = true
          · rw [if_pos hv]
            exact ⟨_, _, _, rfl⟩
          · rw [if_neg hv]
            exact ⟨st, _, _, rfl⟩

theorem save_dataset_append_abort (resolver : Rat → Rat → ResolveResult) (db : DBModel)
    (rows₁ : List CoordinateRow) (rfail : CoordinateRow) (rows₂ : List CoordinateRow)
    (msg : String)
    (h₁ : ∀ r ∈ rows₁, ∀ m, resolver r.latitude r.longitude ≠ ResolveResult.apiError m)
    (h₂ : resolver rfail.latitude rfail.longitude = ResolveResult.apiError msg) :
    ∀ st, save_dataset_coordinates_to_database resolver db st (rows₁ ++ rfail :: rows₂) =
      ⟨(save_dataset_coordinates_to_database resolver db st rows₁).finalState,
       (save_dataset_coordinates_to_database resolver db st rows₁).outcomes,
       (save_dataset_coordinates_to_database resolver db st rows₁).logs ++
         [⟨Severity.critical, LogMsg.apiError msg⟩],
       (save_dataset_coordinates_to_database resolver db st rows₁).calls ++
         [(rfail.latitude, rfail.longitude)],
       Option.some 1⟩ := by
  induction rows₁ with
  | nil =>
    intro st
    have hp : process_row resolver db st rfail =
        Except.error (1, [⟨Severity.critical, LogMsg.apiError msg⟩]) := by
      unfold process_row get_address_from_coordinates
      rw [h₂]
    simp only [List.nil_append, save_dataset_coordinates_to_database, hp]
  | cons r rs ih =>
    intro st
    obtain ⟨st', oc, lgs, hp⟩ := process_row_ok_of_not_apiError resolver db st r
      (h₁ r (List.mem_cons_self r rs))
    have ih2 := ih (fun r' hr' => h₁ r' (List.mem_cons_of_mem r hr'))
    simp only [List.cons_append, save_dataset_coordinates_to_database, hp]
    simp only [List.append_eq]
    rw [ih2 st']
    simp

theorem save_dataset_no_abort_lengths (resolver : Rat → Rat → ResolveResult)
    (db : DBModel) (rows : List CoordinateRow)
    (h : ∀ r ∈ rows, ∀ m, resolver r.latitude r.longitude ≠ ResolveResult.apiError m) :
    ∀ st, (save_dataset_coordinates_to_database resolver db st rows).outcomes.length
        = rows.length ∧
      (save_dataset_coordinates_to_database resolver db st rows).calls.length
        = rows.length := by
  induction rows with
  | nil => intro st; exact ⟨rfl, rfl⟩
  | cons r rs ih =>
    intro st
    obtain ⟨st', oc, lgs, hp⟩ := process_row_ok_of_not_apiError resolver db st r
      (h r (List.mem_cons_self r rs))
    have ih2 := ih (fun r' hr' => h r' (List.mem_cons_of_mem r hr')) st'
    simp only [save_dataset_coordinates_to_database, hp, List.length_cons]
    exact ⟨by rw [ih2.1], by rw [ih2.2]⟩

/-- C4: if the resolver raises `ApiError` on row k of a batch, the run
terminates with exit code 1: every row before k completed (one terminal
outcome and one resolver call each), the failing row's resolver call is the
last call made, no later row is ever attempted, and the store is exactly as
it was after the rows before k. -/
theorem api_failure_aborts_batch (resolver : Rat → Rat → ResolveResult) (db : DBModel)
    (st : DBState) (rows₁ : List CoordinateRow) (rfail : CoordinateRow)
    (rows₂ : List CoordinateRow) (msg : String)
    (h₁ : ∀ r ∈ rows₁, ∀ m, resolver r.latitude r.longitude ≠ ResolveResult.apiError m)
    (h₂ : resolver rfail.latitude rfail.longitude = ResolveResult.apiError msg) :
    (save_dataset_coordinates_to_database resolver db st (rows₁ ++ rfail :: rows₂)).exitCode
        = Option.some 1 ∧
    (save_dataset_coordinates_to_database resolver db st (rows₁ ++ rfail :: rows₂)).outcomes.length
        = rows₁.length ∧
    (save_dataset_coordinates_to_database resolver db st (rows₁ ++ rfail :: rows₂)).calls
        = (save_dataset_coordinates_to_database resolver db st rows₁).calls
            ++ [(rfail.latitude, rfail.longitude)] ∧
    (save_dataset_coordinates_to_database resolver db st (rows₁ ++ rfail :: rows₂)).calls.length
        = rows₁.length + 1 ∧
    (save_dataset_coordinates_to_database resolver db st (rows₁ ++ rfail :: rows₂)).finalState
        = (save_dataset_coordinates_to_database resolver db st rows₁).finalState := by
  have habort := save_dataset_append_abort resolver db rows₁ rfail rows₂ msg h₁ h₂ st
  have hlen := save_dataset_no_abort_lengths resolver db rows₁ h₁ st
  rw [habort]
  exact ⟨rfl, hlen.1, rfl, by simp [hlen.2], rfl⟩

/-- A resolver that fails with a quota error exactly on latitude 3 and
otherwise returns no candidate. -/
def resolverQuota : Rat → Rat → ResolveResult := fun lat _ =>
  if lat = 3 then ResolveResult.apiError "OVER_QUERY_LIMIT" else ResolveResult.ok []

/-- C4 witness: a five-row batch whose third row triggers `ApiError`: exit
code 1, exactly two terminal outcomes, exactly three resolver calls. -/
theorem api_failure_aborts_batch_witness :
    (save_dataset_coordinates_to_database resolverQuota dbAllOk st0
        [⟨1, 1, 0, 0⟩, ⟨2, 2, 0, 0⟩, ⟨3, 3, 0, 0⟩, ⟨4, 4, 0, 0⟩, ⟨5, 5, 0, 0⟩]).exitCode
      = Option.some 1 ∧
    (save_dataset_coordinates_to_database resolverQuota dbAllOk st0
        [⟨1, 1, 0, 0⟩, ⟨2, 2, 0, 0⟩, ⟨3, 3, 0, 0⟩, ⟨4, 4, 0, 0⟩, ⟨5, 5, 0, 0⟩]).outcomes.length
      = 2 ∧
    (save_dataset_coordinates_to_database resolverQuota dbAllOk st0
        [⟨1, 1, 0, 0⟩, ⟨2, 2, 0, 0⟩, ⟨3, 3, 0, 0⟩, ⟨4, 4, 0, 0⟩, ⟨5, 5, 0, 0⟩]).calls.length
      = 3 := by
  have h := api_failure_aborts_batch resolverQuota dbAllOk st0
    [⟨1, 1, 0, 0⟩, ⟨2, 2, 0, 0⟩] ⟨3, 3, 0, 0⟩ [⟨4, 4, 0, 0⟩, ⟨5, 5, 0, 0⟩]
    "OVER_QUERY_LIMIT" ?_ ?_
  · exact ⟨h.1, h.2.1, h.2.2.2.1⟩
  · have hok : ∀ (a b : Rat), a ≠ 3 → ∀ m, resolverQuota a b ≠ ResolveResult.apiError m := by
      intro a b ha m hm
      unfold resolverQuota at hm
      rw [if_neg ha] at hm
      exact ResolveResult.noConfusion hm
    intro r hr
    fin_cases hr <;> exact hok _ _ (by decide)
  · decide

/-- C5: a structured address extracted from a component list that covers
all seven recognized tags, with the coordinate's latitude and longitude
merged in, passes `transform_db.py`'s validator. -/
theorem full_tag_coverage_roundtrip (cs : List AddressComponent) (lat lon : Rat)
    (h : ∀ r ∈ extract_rules, ∃ c ∈ cs, r.tag ∈ c.types) :
    ∃ a, get_address_from_address_components cs = Option.some a ∧
      is_address_valid (merge_coordinates a lat lon) = true := by
  have hmem : ∀ k, k ∈ dictKeys (cs.foldl extractStep []) ↔
      ∃ c ∈ cs, ∃ r ∈ extract_rules, r.tag ∈ c.types ∧ k = r.field := by
    intro k
    rw [mem_dictKeys_foldl_extractStep]
    simp [dictKeys]
  have hfield : ∀ r ∈ extract_rules, r.field ∈ dictKeys (cs.foldl extractStep []) := by
    intro r hr
    obtain ⟨c, hc, ht⟩ := h r hr
    exact (hmem r.field).mpr ⟨c, hc, r, hr, ht, rfl⟩
  have hcountry : "country" ∈ dictKeys (cs.foldl extractStep []) :=
    hfield ⟨"country", "country", false⟩ (by decide)
  have hne : (cs.foldl extractStep []).isEmpty = false := by
    cases h0 : cs.foldl extractStep [] with
    | nil =>
      rw [h0] at hcountry
      simp [dictKeys] at hcountry
    | cons p d => rfl
  have hsome : get_address_from_address_components cs =
      Option.some (cs.foldl extractStep []) := by
    unfold get_address_from_address_components
    simp [hne]
  refine ⟨cs.foldl extractStep [], hsome, ?_⟩
  have hnd : (dictKeys (cs.foldl extractStep [])).Nodup :=
    nodup_dictKeys_foldl_extractStep cs [] (by simp [dictKeys])
  have hnd2 : (dictKeys (merge_coordinates (cs.foldl extractStep []) lat lon)).Nodup := by
    unfold merge_coordinates
    exact nodup_dictKeys_dictUpdate _ _ _ (nodup_dictKeys_dictUpdate _ _ _ hnd)
  rw [is_address_valid_iff _ hnd2]
  intro k
  unfold merge_coordinates
  rw [mem_dictKeys_dictUpdate, mem_dictKeys_dictUpdate]
  constructor
  · rintro ((hk | rfl) | rfl)
    · obtain ⟨c, hc, r, hr, ht, rfl⟩ := (hmem k).mp hk
      have hsub : ∀ r ∈ extract_rules, r.field ∈ address_components_db := by decide
      exact hsub r hr
    · decide
    · decide
  · intro hk
    fin_cases hk
    · exact Or.inl (Or.inl (hfield ⟨"country", "country", false⟩ (by decide)))
    · exact Or.inl (Or.inl (hfield ⟨"administrative_area_level_1", "state", true⟩ (by decide)))
    · exact Or.inl (Or.inl (hfield ⟨"administrative_area_level_2", "city", false⟩ (by decide)))
    · exact Or.inl (Or.inl (hfield ⟨"sublocality_level_1", "neighborhood", false⟩ (by decide)))
    · exact Or.inl (Or.inl (hfield ⟨"street_number", "street_number", false⟩ (by decide)))
    · exact Or.inl (Or.inl (hfield ⟨"route", "street_name", false⟩ (by decide)))
    · exact Or.inl (Or.inl (hfield ⟨"postal_code", "postal_code", false⟩ (by decide)))
    · exact Or.inl (Or.inr rfl)
    · exact Or.inr rfl

/-- C5 witness: `componentsFull` covers the seven tags, and the extracted
address merged with coordinates (−30, −51) validates. -/
theorem full_tag_coverage_roundtrip_witness :
    (∀ r ∈ extract_rules, ∃ c ∈ componentsFull, r.tag ∈ c.types) ∧
    ∃ a, get_address_from_address_components componentsFull = Option.some a ∧
      is_address_valid (merge_coordinates a (-30) (-51)) = true :=
  ⟨by decide, full_tag_coverage_roundtrip componentsFull (-30) (-51) (by decide)⟩

/-- C10 (amended): the two `is_address_valid` implementations do not
compute the same predicate — every address map the refactored
`transform_db.py` validator accepts is rejected by the draft
`transform_csv_to_database.py` validator, whose hard-coded list misspells
the coordinate field names. -/
theorem db_valid_address_rejected_by_csv (a : Dict)
    (h : is_address_valid a = true) : csv_is_address_valid a = false := by
  rw [is_address_valid_iff_perm] at h
  have hlat : "latitude" ∈ dictKeys a := h.mem_iff.mpr (by decide)
  unfold csv_is_address_valid
  cases hall : (dictKeys a).all (fun k => decide (k ∈ address_components_csv)) with
  | false => rfl
  | true =>
    rw [List.all_eq_true] at hall
    exact absurd (of_decide_eq_true (hall "latitude" hlat)) (by decide)

/-- C10 witness: the complete nine-field address is accepted by the
refactored validator and rejected by the draft one. -/
theorem db_valid_address_rejected_by_csv_witness :
    is_address_valid addressFull = true ∧ csv_is_address_valid addressFull = false :=
  ⟨by decide, db_valid_address_rejected_by_csv addressFull (by decide)⟩
